import Mathlib

/-
Verification of a Buffett-style stock screening utility.

The repository consists of two Python files:
  - stock.py : interactive variant (prompts a human for the figures);
  - test.py  : fetched variant (pulls figures from an external data source,
               with fallback substitution when preferred fields are absent).

Numeric values (Python floats) are modelled as rationals; a Python value
that may be None is modelled as an Option; a fetch that may raise is
modelled in Except over an explicit error type whose constructors stand
for the distinct raise sites of fetch_financials.
-/

namespace BuffettScreen

/- The snapshot record returned by fetch_financials in test.py (keys
eps_5y, rev_4q, roe_4q, gm_5y, price, bvps), which is also the set of
figures collected interactively by stock.py. -/
structure FinancialData where
  eps_5y : List ℚ
  rev_4q : List ℚ
  roe_4q : List ℚ
  gm_5y : List ℚ
  price : ℚ
  bvps : ℚ
deriving DecidableEq

/- The snapshot after calculate_indicators in test.py has added the
pb_ratio key. -/
structure DerivedData extends FinancialData where
  pb_ratio : ℚ
deriving DecidableEq

/- calculate_indicators (test.py line 92): data with the added key
pb_ratio = price / bvps. -/
def calculate_indicators (data : FinancialData) : DerivedData :=
  { data with pb_ratio := data.price / data.bvps }

/- The five-entry ordered pass/fail map built by apply_buffett_criteria
in test.py (and by the conditions dict in stock.py main), one Bool per
fixed criterion label, insertion order c1 .. c5. -/
structure CriteriaResult where
  c1_eps : Bool
  c2_rev : Bool
  c3_pb : Bool
  c4_roe : Bool
  c5_gm : Bool
deriving DecidableEq

/- The dict values in insertion order, as consumed by
all(criteria_results.values()). -/
def CriteriaResult.values (r : CriteriaResult) : List Bool :=
  [r.c1_eps, r.c2_rev, r.c3_pb, r.c4_roe, r.c5_gm]

/- apply_buffett_criteria (test.py lines 97-104): the five threshold
predicates. -/
def apply_buffett_criteria (data : DerivedData) : CriteriaResult where
  c1_eps := data.eps_5y.all fun x => decide (x > 1)
  c2_rev := data.rev_4q.all fun x => decide (x > 1.5)
  c3_pb := decide (data.pb_ratio < 1.5)
  c4_roe := data.roe_4q.all fun x => decide (x > 5)
  c5_gm := data.gm_5y.all fun x => decide (x > 10)

/- Explicit-state embedding of apply_buffett_criteria: the Python
function receives a mutable dict but performs no write to it, so the
state it passes on is the state it received. -/
def apply_buffett_criteria_st (data : DerivedData) : CriteriaResult × DerivedData :=
  (apply_buffett_criteria data, data)

/- The aggregate recommendation printed by display_results in test.py
and by the conclusion branch of main in stock.py. -/
inductive Verdict where
  | recommended
  | notRecommended
deriving DecidableEq

/- display_results (test.py line 114): recommended iff
all(criteria_results.values()). -/
def display_verdict (r : CriteriaResult) : Verdict :=
  if r.values.all id then Verdict.recommended else Verdict.notRecommended

/- The conditions dict built inline in main of stock.py (lines 44-50);
the predicates coincide with apply_buffett_criteria, with pb_ratio
computed at line 41. -/
def stock_conditions (eps_5y revenue_4q roe_4q gross_margin_5y : List ℚ)
    (price book_value_per_share : ℚ) : CriteriaResult :=
  let pb_ratio := price / book_value_per_share
  { c1_eps := eps_5y.all fun x => decide (x > 1)
    c2_rev := revenue_4q.all fun x => decide (x > 1.5)
    c3_pb := decide (pb_ratio < 1.5)
    c4_roe := roe_4q.all fun x => decide (x > 5)
    c5_gm := gross_margin_5y.all fun x => decide (x > 10) }

/- The conclusion of main in stock.py (lines 58-61):
all(conditions.values()) decides the recommendation. -/
def stock_verdict (eps_5y revenue_4q roe_4q gross_margin_5y : List ℚ)
    (price book_value_per_share : ℚ) : Verdict :=
  if (stock_conditions eps_5y revenue_4q roe_4q gross_margin_5y
      price book_value_per_share).values.all id
  then Verdict.recommended else Verdict.notRecommended

-- helper lemmas about the evaluator

theorem display_verdict_eq_recommended_iff (r : CriteriaResult) :
    display_verdict r = Verdict.recommended ↔
      (r.c1_eps ∧ r.c2_rev ∧ r.c3_pb ∧ r.c4_roe ∧ r.c5_gm) := by
  unfold display_verdict CriteriaResult.values
  split
  · next h => simp_all
  · next h => simp_all

theorem stock_verdict_eq_display (eps rev roe gm : List ℚ) (p b : ℚ) :
    stock_verdict eps rev roe gm p b =
      display_verdict (stock_conditions eps rev roe gm p b) := rfl

/-- C1: for every snapshot, the overall verdict is recommended iff all
five criteria pass (every EPS value > 1, every revenue-per-share value
> 1.5, price-to-book < 1.5, every ROE value > 5, every gross-margin
value > 10); if any single criterion fails the verdict is not
recommended. Stated for the fetched variant (display_results over
apply_buffett_criteria) and for the interactive variant (stock.py
main). -/
theorem verdict_iff_all_criteria (d : DerivedData)
    (eps rev roe gm : List ℚ) (p b : ℚ) :
    (display_verdict (apply_buffett_criteria d) = Verdict.recommended ↔
      ((∀ x ∈ d.eps_5y, x > 1) ∧ (∀ x ∈ d.rev_4q, x > 1.5) ∧
        d.pb_ratio < 1.5 ∧ (∀ x ∈ d.roe_4q, x > 5) ∧ (∀ x ∈ d.gm_5y, x > 10))) ∧
    (display_verdict (apply_buffett_criteria d) = Verdict.notRecommended ↔
      ¬ ((∀ x ∈ d.eps_5y, x > 1) ∧ (∀ x ∈ d.rev_4q, x > 1.5) ∧
        d.pb_ratio < 1.5 ∧ (∀ x ∈ d.roe_4q, x > 5) ∧ (∀ x ∈ d.gm_5y, x > 10))) ∧
    (stock_verdict eps rev roe gm p b = Verdict.recommended ↔
      ((∀ x ∈ eps, x > 1) ∧ (∀ x ∈ rev, x > 1.5) ∧
        p / b < 1.5 ∧ (∀ x ∈ roe, x > 5) ∧ (∀ x ∈ gm, x > 10))) := by
  have hiff : ∀ r : CriteriaResult,
      (display_verdict r = Verdict.notRecommended ↔
        ¬ display_verdict r = Verdict.recommended) := by
    intro r
    unfold display_verdict
    split <;> simp
  refine ⟨?_, ?_, ?_⟩
  · rw [display_verdict_eq_recommended_iff]
    simp [apply_buffett_criteria, List.all_eq_true]
  · rw [hiff, display_verdict_eq_recommended_iff]
    simp [apply_buffett_criteria, List.all_eq_true]
  · rw [stock_verdict_eq_display, display_verdict_eq_recommended_iff]
    simp [stock_conditions, List.all_eq_true]

/-- C2: the criteria evaluator computes exactly five fixed
strict-threshold predicates, each evaluated independently over its own
piece of the snapshot: criterion 1 holds iff every value of the EPS
history is strictly greater than 1, criterion 2 iff every
revenue-per-share value is strictly greater than 1.5, criterion 3 iff
the price-to-book ratio is strictly less than 1.5, criterion 4 iff
every ROE value is strictly greater than 5, criterion 5 iff every
gross-margin value is strictly greater than 10. -/
theorem five_fixed_criteria (d : DerivedData) :
    ((apply_buffett_criteria d).c1_eps = true ↔ ∀ x ∈ d.eps_5y, x > 1) ∧
    ((apply_buffett_criteria d).c2_rev = true ↔ ∀ x ∈ d.rev_4q, x > 1.5) ∧
    ((apply_buffett_criteria d).c3_pb = true ↔ d.pb_ratio < 1.5) ∧
    ((apply_buffett_criteria d).c4_roe = true ↔ ∀ x ∈ d.roe_4q, x > 5) ∧
    ((apply_buffett_criteria d).c5_gm = true ↔ ∀ x ∈ d.gm_5y, x > 10) ∧
    (apply_buffett_criteria d).values.length = 5 := by
  refine ⟨?_, ?_, ?_, ?_, ?_, rfl⟩ <;>
    simp [apply_buffett_criteria, List.all_eq_true]

/-- C8: criteria evaluation is deterministic and side-effect-free: in
the explicit-state embedding, evaluating the criteria a second time on
the state handed back by the first evaluation yields the same result,
and the state handed back is the snapshot that was passed in,
unmodified. -/
theorem criteria_deterministic_pure (d : DerivedData) :
    (apply_buffett_criteria_st d).1 =
      (apply_buffett_criteria_st (apply_buffett_criteria_st d).2).1 ∧
    (apply_buffett_criteria_st d).2 = d := ⟨rfl, rfl⟩

/- The facts fetch_financials (test.py lines 21-87) reads from the
external data source, one field per access site. A Python float that
may be None is an Option; a statement-table row that may be absent from
the index is an Option over the row values; incomeStatementHistory
holds, per historical income-statement record, the value of
rec.get(netIncome).get(raw). -/
structure FetchInput where
  regularMarketPrice : Option ℚ
  bookValue : Option ℚ
  sharesOutstanding : Option ℚ
  incomeStatementHistory : List (Option ℚ)
  trailingEps : Option ℚ
  qfTotalRevenue : Option (List ℚ)
  qfNetIncome : Option (List ℚ)
  totalStockholderEquity : Option ℚ
  trailingReturnOnEquity : Option ℚ
  returnOnEquity : Option ℚ
  finGrossProfit : Option (List ℚ)
  finTotalRevenue : Option (List ℚ)
deriving DecidableEq

/- The distinct ValueError raise sites of fetch_financials, in source
order (lines 29, 43, 51, 65, 74, 77). -/
inductive FetchError where
  | noPriceOrBvps
  | noAnnualEps
  | insufficientQuarterlyRevenue
  | noQuarterlyRoe
  | insufficientGrossMargin
  | noGrossMarginData
deriving DecidableEq

/- Python truthiness of a possibly-None float: None and 0.0 are falsy. -/
def truthy : Option ℚ → Bool
  | none => false
  | some x => x != 0

/- Python x or y over possibly-None floats: x when truthy, else y. -/
def pyOr (a b : Option ℚ) : Option ℚ :=
  if truthy a then a else b

/- The eps_list accumulated by the loop at test.py lines 32-38: for each
of the first years_eps records, append ni / shares when both ni and
shares are truthy, silently skip the record otherwise. -/
def computedEpsList (inp : FetchInput) (years_eps : Nat) : List ℚ :=
  (inp.incomeStatementHistory.take years_eps).filterMap fun ni =>
    if truthy ni && truthy inp.sharesOutstanding then
      some (ni.getD 0 / inp.sharesOutstanding.getD 0)
    else none

/- Step 2 of fetch_financials (lines 31-44): computed per-year EPS,
with trailingEps fallback when fewer entries were computed than
requested, and an error when the fallback is also absent. -/
def fetchEps (inp : FetchInput) (years_eps : Nat) : Except FetchError (List ℚ) :=
  let eps_list := computedEpsList inp years_eps
  if eps_list.length < years_eps then
    match inp.trailingEps with
    | none => Except.error FetchError.noAnnualEps
    | some trailing => Except.ok (List.replicate years_eps trailing)
  else Except.ok eps_list

/- The rev list of test.py line 49: the Total Revenue row truncated to
quarters_rev entries when the row is present, else the empty list. -/
def revList (inp : FetchInput) (quarters_rev : Nat) : List ℚ :=
  match inp.qfTotalRevenue with
  | some row => row.take quarters_rev
  | none => []

/- Step 3 of fetch_financials (lines 46-51): quarterly revenue, failing
when fewer entries exist than requested; no fallback. -/
def fetchRev (inp : FetchInput) (quarters_rev : Nat) : Except FetchError (List ℚ) :=
  if (revList inp quarters_rev).length < quarters_rev then
    Except.error FetchError.insufficientQuarterlyRevenue
  else Except.ok (revList inp quarters_rev)

/- The roe list as of test.py line 60: per-quarter ni / equity * 100,
but only when the Net Income row is present, the equity figure is
truthy, and the truncated row has exactly quarters_rev entries;
otherwise the empty list from line 54. -/
def computedRoeList (inp : FetchInput) (quarters_rev : Nat) : List ℚ :=
  match inp.qfNetIncome with
  | some row =>
    if truthy inp.totalStockholderEquity then
      if (row.take quarters_rev).length = quarters_rev then
        (row.take quarters_rev).map fun ni =>
          ni / inp.totalStockholderEquity.getD 0 * 100
      else []
    else []
  | none => []

/- Step 4 of fetch_financials (lines 53-66): quarterly ROE, with the
trailingReturnOnEquity or returnOnEquity fallback repeated across the
window when the computed path fell short, and an error when the
fallback is None. -/
def fetchRoe (inp : FetchInput) (quarters_rev : Nat) : Except FetchError (List ℚ) :=
  if (computedRoeList inp quarters_rev).length < quarters_rev then
    match pyOr inp.trailingReturnOnEquity inp.returnOnEquity with
    | none => Except.error FetchError.noQuarterlyRoe
    | some fallback_roe => Except.ok (List.replicate quarters_rev fallback_roe)
  else Except.ok (computedRoeList inp quarters_rev)

/- Step 5 of fetch_financials (lines 68-77): annual gross margin,
requiring both the Gross Profit and Total Revenue rows and a full
window in each truncated row; no fallback. -/
def fetchGm (inp : FetchInput) (years_eps : Nat) : Except FetchError (List ℚ) :=
  match inp.finGrossProfit, inp.finTotalRevenue with
  | some gpRow, some trRow =>
    if (gpRow.take years_eps).length < years_eps ∨
        (trRow.take years_eps).length < years_eps then
      Except.error FetchError.insufficientGrossMargin
    else
      Except.ok (((gpRow.take years_eps).zip (trRow.take years_eps)).map
        fun p => p.1 / p.2 * 100)
  | _, _ => Except.error FetchError.noGrossMarginData

/- fetch_financials (test.py lines 21-87): the five extraction steps in
source order, each raise aborting the whole fetch, and the final dict
of line 80 on success. -/
def fetch_financials (inp : FetchInput) (years_eps quarters_rev : Nat) :
    Except FetchError FinancialData :=
  match inp.regularMarketPrice, inp.bookValue with
  | some price, some bvps =>
    match fetchEps inp years_eps with
    | Except.error e => Except.error e
    | Except.ok eps =>
      match fetchRev inp quarters_rev with
      | Except.error e => Except.error e
      | Except.ok rev =>
        match fetchRoe inp quarters_rev with
        | Except.error e => Except.error e
        | Except.ok roe =>
          match fetchGm inp years_eps with
          | Except.error e => Except.error e
          | Except.ok gm =>
            Except.ok { eps_5y := eps, rev_4q := rev, roe_4q := roe,
                        gm_5y := gm, price := price, bvps := bvps }
  | _, _ => Except.error FetchError.noPriceOrBvps

-- helper lemmas about the fetch pipeline

theorem fetch_ok_spec (inp : FetchInput) (y q : Nat) (s : FinancialData)
    (hs : fetch_financials inp y q = Except.ok s) :
    inp.regularMarketPrice = some s.price ∧ inp.bookValue = some s.bvps ∧
    fetchEps inp y = Except.ok s.eps_5y ∧ fetchRev inp q = Except.ok s.rev_4q ∧
    fetchRoe inp q = Except.ok s.roe_4q ∧ fetchGm inp y = Except.ok s.gm_5y := by
  unfold fetch_financials at hs
  split at hs
  · split at hs
    · exact absurd hs (by simp)
    · split at hs
      · exact absurd hs (by simp)
      · split at hs
        · exact absurd hs (by simp)
        · split at hs
          · exact absurd hs (by simp)
          · cases hs
            simp_all
  · exact absurd hs (by simp)

theorem computedRoeList_length_le (inp : FetchInput) (q : Nat) :
    (computedRoeList inp q).length ≤ q := by
  unfold computedRoeList
  split
  · split
    · split
      · next h => simp [h]
      · simp
    · simp
  · simp

theorem length_filterMap_lt_of_mem_none {α β : Type} (f : α → Option β)
    (l : List α) (a : α) (ha : a ∈ l) (hfa : f a = none) :
    (l.filterMap f).length < l.length := by
  induction l with
  | nil => cases ha
  | cons b t ih =>
    rcases List.mem_cons.mp ha with rfl | hat
    · rw [List.filterMap_cons, hfa]
      exact Nat.lt_succ_of_le (List.length_filterMap_le f t)
    · rw [List.filterMap_cons]
      cases hfb : f b with
      | none => exact Nat.lt_succ_of_le (Nat.le_of_lt (ih hat))
      | some c => simpa using Nat.succ_lt_succ (ih hat)

-- concrete inputs for the fetch-stage witnesses

/- A fetch input whose historical income list yields only two computed
EPS entries (the zero netIncome record is skipped) while trailingEps is
present, exercising the EPS fallback at window 5. -/
def epsFallbackInput : FetchInput :=
  { regularMarketPrice := some 10, bookValue := some 8,
    sharesOutstanding := some 2,
    incomeStatementHistory := [some 6, some 8],
    trailingEps := some 4.5,
    qfTotalRevenue := some [2, 2, 2, 2],
    qfNetIncome := none,
    totalStockholderEquity := none,
    trailingReturnOnEquity := some 6,
    returnOnEquity := none,
    finGrossProfit := some [20, 20, 20, 20, 20],
    finTotalRevenue := some [100, 100, 100, 100, 100] }

/- A fetch input whose quarterly Net Income row is too short for the
window, with trailingReturnOnEquity 12.3 present, exercising the ROE
fallback at window 4. -/
def roeFallbackInput : FetchInput :=
  { regularMarketPrice := some 10, bookValue := some 8,
    sharesOutstanding := some 2,
    incomeStatementHistory := [some 6, some 8, some 10, some 12, some 14],
    trailingEps := none,
    qfTotalRevenue := some [2, 2, 2, 2],
    qfNetIncome := some [5, 5],
    totalStockholderEquity := some 50,
    trailingReturnOnEquity := some 12.3,
    returnOnEquity := none,
    finGrossProfit := some [20, 20, 20, 20, 20],
    finTotalRevenue := some [100, 100, 100, 100, 100] }

/- A fetch input whose quarterly Total Revenue row has only two entries
and whose annual Gross Profit row is absent. -/
def shortRevNoGmInput : FetchInput :=
  { regularMarketPrice := some 10, bookValue := some 8,
    sharesOutstanding := some 2,
    incomeStatementHistory := [some 6, some 8, some 10, some 12, some 14],
    trailingEps := some 4.5,
    qfTotalRevenue := some [2, 2],
    qfNetIncome := none,
    totalStockholderEquity := none,
    trailingReturnOnEquity := some 6,
    returnOnEquity := none,
    finGrossProfit := none,
    finTotalRevenue := some [100, 100, 100, 100, 100] }

/-- C3: in the fetched strategy, when the historical income-statement
records yield fewer computed EPS entries than the requested window, the
partial results are discarded and the whole window is the trailing EPS
figure repeated; the fetch fails with the annual-EPS error when that
figure is absent, and the error aborts the whole fetch when the
price/book-value gate has passed. -/
theorem eps_window_fallback (inp : FetchInput) (y q : Nat) (p b : ℚ)
    (hshort : (computedEpsList inp y).length < y) :
    (∀ t, inp.trailingEps = some t →
      fetchEps inp y = Except.ok (List.replicate y t)) ∧
    (inp.trailingEps = none →
      fetchEps inp y = Except.error FetchError.noAnnualEps) ∧
    (inp.trailingEps = none → inp.regularMarketPrice = some p →
      inp.bookValue = some b →
      fetch_financials inp y q = Except.error FetchError.noAnnualEps) := by
  refine ⟨?_, ?_, ?_⟩
  · intro t ht
    simp [fetchEps, hshort, ht]
  · intro ht
    simp [fetchEps, hshort, ht]
  · intro ht hp hb
    have he : fetchEps inp y = Except.error FetchError.noAnnualEps := by
      simp [fetchEps, hshort, ht]
    unfold fetch_financials
    rw [hp, hb, he]

/-- C3 witness: a historical income list yielding only two computed EPS
entries, with trailing EPS 4.5 at window 5, produces the EPS history
[4.5, 4.5, 4.5, 4.5, 4.5]. -/
theorem eps_window_fallback_witness :
    (computedEpsList epsFallbackInput 5).length < 5 ∧
    fetchEps epsFallbackInput 5 =
      Except.ok [(4.5 : ℚ), 4.5, 4.5, 4.5, 4.5] := by
  have h := (eps_window_fallback epsFallbackInput 5 4 10 8 (by decide)).1
    4.5 rfl
  exact ⟨by decide, by rw [h]; rfl⟩

/-- C4: in the fetched strategy, the computed per-quarter ROE path is
accepted only when it yields the full requested window (every accepted
ROE history has exactly the window length); when the computed list
falls short, the whole window is the trailing/fallback ROE figure
repeated, and the fetch step fails with the quarterly-ROE error when no
fallback figure is available. -/
theorem roe_window_fallback (inp : FetchInput) (q : Nat) :
    (¬ (computedRoeList inp q).length < q →
      fetchRoe inp q = Except.ok (computedRoeList inp q)) ∧
    ((computedRoeList inp q).length < q →
      (∀ f, pyOr inp.trailingReturnOnEquity inp.returnOnEquity = some f →
        fetchRoe inp q = Except.ok (List.replicate q f)) ∧
      (pyOr inp.trailingReturnOnEquity inp.returnOnEquity = none →
        fetchRoe inp q = Except.error FetchError.noQuarterlyRoe)) ∧
    (∀ l, fetchRoe inp q = Except.ok l → l.length = q) := by
  refine ⟨?_, ?_, ?_⟩
  · intro hfull
    simp [fetchRoe, hfull]
  · intro hshort
    constructor
    · intro f hf
      simp [fetchRoe, hshort, hf]
    · intro hf
      simp [fetchRoe, hshort, hf]
  · intro l hl
    unfold fetchRoe at hl
    split at hl
    · split at hl
      · exact absurd hl (by simp)
      · cases hl
        simp
    · next hfull =>
      cases hl
      exact Nat.le_antisymm (computedRoeList_length_le inp q)
        (Nat.le_of_not_lt hfull)

/-- C4 witness: with no usable quarterly net-income path (the Net
Income row has only two of four requested entries) and fallback ROE
12.3 at window 4, the ROE history is [12.3, 12.3, 12.3, 12.3]. -/
theorem roe_window_fallback_witness :
    (computedRoeList roeFallbackInput 4).length < 4 ∧
    fetchRoe roeFallbackInput 4 =
      Except.ok [(12.3 : ℚ), 12.3, 12.3, 12.3] := by
  have hpy : pyOr roeFallbackInput.trailingReturnOnEquity
      roeFallbackInput.returnOnEquity = some 12.3 := by
    have ht : truthy (some (12.3 : ℚ)) = true := by
      simp only [truthy, bne_iff_ne, ne_eq, decide_eq_true_eq]
      norm_num
    simp [pyOr, roeFallbackInput, ht]
  have h := ((roe_window_fallback roeFallbackInput 4).2.1
    (by decide)).1 12.3 hpy
  exact ⟨by decide, by rw [h]; rfl⟩

/-- C5: in the fetched strategy, revenue history and gross-margin
history have no fallback: a quarterly Total Revenue row with fewer
entries than requested fails with the quarterly-revenue error, a
missing annual Gross Profit or Total Revenue row fails with the
gross-margin-data error, a present but truncated annual row fails with
the gross-margin-shortage error, and every successful fetch passed
every stage, so an error at any stage means no snapshot at all is
produced. -/
theorem rev_gm_no_fallback (inp : FetchInput) (y q : Nat) :
    ((revList inp q).length < q →
      fetchRev inp q = Except.error FetchError.insufficientQuarterlyRevenue) ∧
    (inp.finGrossProfit = none ∨ inp.finTotalRevenue = none →
      fetchGm inp y = Except.error FetchError.noGrossMarginData) ∧
    (∀ gpRow trRow, inp.finGrossProfit = some gpRow →
      inp.finTotalRevenue = some trRow →
      (gpRow.take y).length < y ∨ (trRow.take y).length < y →
      fetchGm inp y = Except.error FetchError.insufficientGrossMargin) ∧
    (∀ s, fetch_financials inp y q = Except.ok s →
      fetchRev inp q = Except.ok s.rev_4q ∧ fetchGm inp y = Except.ok s.gm_5y) := by
  refine ⟨?_, ?_, ?_, ?_⟩
  · intro hshort
    simp [fetchRev, hshort]
  · intro hmiss
    unfold fetchGm
    rcases hmiss with hgp | htr
    · rw [hgp]
    · rw [htr]
      cases inp.finGrossProfit <;> rfl
  · intro gpRow trRow hgp htr hshort
    simp only [fetchGm, hgp, htr]
    rw [if_pos hshort]
  · intro s hs
    have h := fetch_ok_spec inp y q s hs
    exact ⟨h.2.2.2.1, h.2.2.2.2.2⟩

/-- C5 witness: a two-entry quarterly Total Revenue row at window 4
yields the quarterly-revenue error, a missing annual Gross Profit row
yields the gross-margin-data error, and that input admits no successful
fetch. -/
theorem rev_gm_no_fallback_witness :
    fetchRev shortRevNoGmInput 4 =
      Except.error FetchError.insufficientQuarterlyRevenue ∧
    fetchGm shortRevNoGmInput 5 =
      Except.error FetchError.noGrossMarginData ∧
    fetch_financials shortRevNoGmInput 5 4 =
      Except.error FetchError.insufficientQuarterlyRevenue := by
  refine ⟨(rev_gm_no_fallback shortRevNoGmInput 5 4).1 (by decide),
    (rev_gm_no_fallback shortRevNoGmInput 5 4).2.1 (Or.inl rfl), rfl⟩

/- One attempt at a list prompt of get_float_list (stock.py lines 6-12):
the comma-separated tokens of the entered line, a token being some v
when float parsing succeeds and none when it raises ValueError. -/
def parseAttempt (count : Nat) (line : List (Option ℚ)) : Option (List ℚ) :=
  match line.mapM id with
  | none => none
  | some values => if values.length = count then some values else none

/- get_float_list (stock.py lines 2-14) over the stream of lines the
human will enter: the while True loop returns the first attempt whose
tokens all parse and whose count matches, printing an error and
re-prompting past every other attempt; none means the stream ran out
before a valid attempt arrived (the loop would still be waiting). -/
def get_float_list (count : Nat) : List (List (Option ℚ)) → Option (List ℚ)
  | [] => none
  | line :: rest =>
    match parseAttempt count line with
    | some values => some values
    | none => get_float_list count rest

/- The scalar tail of main in stock.py (lines 33-41 and onward): price
and book value are each parsed exactly once (none models a float(...)
that raised), a parse failure prints an error and returns early, and on
success the verdict is computed from the already-collected lists. -/
def stock_main (eps_5y revenue_4q roe_4q gross_margin_5y : List ℚ)
    (priceInput bookValueInput : Option ℚ) : Option Verdict :=
  match priceInput, bookValueInput with
  | some price, some book_value_per_share =>
    some (stock_verdict eps_5y revenue_4q roe_4q gross_margin_5y
      price book_value_per_share)
  | _, _ => none

theorem get_float_list_first_valid (count : Nat)
    (bad : List (List (Option ℚ))) (good : List (Option ℚ))
    (rest : List (List (Option ℚ))) (vs : List ℚ)
    (hbad : ∀ l ∈ bad, parseAttempt count l = none)
    (hgood : parseAttempt count good = some vs) :
    get_float_list count (bad ++ good :: rest) = some vs := by
  induction bad with
  | nil =>
    simp only [List.nil_append, get_float_list, hgood]
  | cons l ls ih =>
    have hl : parseAttempt count l = none := hbad l (by simp)
    simp only [List.cons_append, get_float_list, hl]
    exact ih (fun x hx => hbad x (by simp [hx]))

/-- C7: in the interactive strategy, a history-field attempt whose
tokens fail float parsing or whose count mismatches is skipped and the
prompt repeats, for any number of bad attempts, until a valid list is
entered, which is returned; whereas the scalar price and book-value
inputs are parsed exactly once and a parse failure on either one makes
the run abort with no verdict instead of retrying. -/
theorem interactive_retry_scalar_abort (count : Nat)
    (bad : List (List (Option ℚ))) (good : List (Option ℚ))
    (rest : List (List (Option ℚ))) (vs : List ℚ)
    (hbad : ∀ l ∈ bad, parseAttempt count l = none)
    (hgood : parseAttempt count good = some vs) :
    get_float_list count (bad ++ good :: rest) = some vs ∧
    (∀ eps rev roe gm bv, stock_main eps rev roe gm none bv = none) ∧
    (∀ eps rev roe gm p, stock_main eps rev roe gm p none = none) := by
  refine ⟨get_float_list_first_valid count bad good rest vs hbad hgood, ?_, ?_⟩
  · intro eps rev roe gm bv
    cases bv <;> rfl
  · intro eps rev roe gm p
    cases p <;> rfl

/-- C7 witness: at a 5-count field, the malformed line a,b,c (no token
parses), then the 3-count line 1,2,3, are each rejected and re-prompted,
and the line 1,2,3,4,5 is then accepted as [1,2,3,4,5]; a failed scalar
price parse aborts with no verdict. -/
theorem interactive_retry_scalar_abort_witness :
    get_float_list 5 [[none, none, none], [some 1, some 2, some 3],
      [some 1, some 2, some 3, some 4, some 5]] =
      some [(1 : ℚ), 2, 3, 4, 5] ∧
    stock_main [] [] [] [] none (some 1) = none := by
  have h := interactive_retry_scalar_abort 5
    [[none, none, none], [some 1, some 2, some 3]]
    [some 1, some 2, some 3, some 4, some 5] [] [1, 2, 3, 4, 5]
    (by decide) (by decide)
  exact ⟨h.1, h.2.1 [] [] [] [] (some 1)⟩

-- inputs for the remaining fetch witnesses and the C6 counterexample

/- A fetch input whose five-record historical income list contains one
record with raw netIncome 0; the other four records would each yield a
computed EPS of 5. -/
def zeroRecordInput : FetchInput :=
  { regularMarketPrice := some 10, bookValue := some 8,
    sharesOutstanding := some 2,
    incomeStatementHistory := [some 10, some 0, some 10, some 10, some 10],
    trailingEps := some 4.5,
    qfTotalRevenue := some [2, 2, 2, 2],
    qfNetIncome := none,
    totalStockholderEquity := none,
    trailingReturnOnEquity := some 6,
    returnOnEquity := none,
    finGrossProfit := some [20, 20, 20, 20, 20],
    finTotalRevenue := some [100, 100, 100, 100, 100] }

/-- C9: in the fetched strategy, a historical income-statement record
whose netIncome raw value is falsy (0 or missing), or a falsy
sharesOutstanding, is silently skipped by the truthiness test, so any
such record within the window leaves the computed EPS list short of the
window and the whole window is forced onto the trailing-EPS fallback,
discarding every correctly computed per-year EPS value; when the
trailing figure is also absent the step fails. -/
theorem falsy_record_forces_eps_fallback (inp : FetchInput) (y : Nat)
    (ni : Option ℚ) (hmem : ni ∈ inp.incomeStatementHistory.take y)
    (hfalsy : truthy ni = false ∨ truthy inp.sharesOutstanding = false) :
    (computedEpsList inp y).length < y ∧
    (∀ t, inp.trailingEps = some t →
      fetchEps inp y = Except.ok (List.replicate y t)) ∧
    (inp.trailingEps = none →
      fetchEps inp y = Except.error FetchError.noAnnualEps) := by
  have hnone : (fun x : Option ℚ =>
      if truthy x && truthy inp.sharesOutstanding then
        some (x.getD 0 / inp.sharesOutstanding.getD 0) else none) ni = none := by
    rcases hfalsy with h | h <;> simp [h]
  have hshort : (computedEpsList inp y).length < y := by
    have hlt := length_filterMap_lt_of_mem_none
      (fun x : Option ℚ =>
        if truthy x && truthy inp.sharesOutstanding then
          some (x.getD 0 / inp.sharesOutstanding.getD 0) else none)
      (inp.incomeStatementHistory.take y) ni hmem hnone
    have hle : (inp.incomeStatementHistory.take y).length ≤ y := by
      simp [List.length_take]
    exact lt_of_lt_of_le hlt hle
  refine ⟨hshort, ?_, ?_⟩
  · intro t ht
    simp [fetchEps, hshort, ht]
  · intro ht
    simp [fetchEps, hshort, ht]

/-- C9 witness: among five history records with shares 2, the single
zero netIncome record is skipped, leaving four computed EPS entries of
the five requested, and with trailing EPS 4.5 the whole window becomes
[4.5, 4.5, 4.5, 4.5, 4.5], discarding the four computed values. -/
theorem falsy_record_forces_eps_fallback_witness :
    (computedEpsList zeroRecordInput 5).length = 4 ∧
    fetchEps zeroRecordInput 5 =
      Except.ok [(4.5 : ℚ), 4.5, 4.5, 4.5, 4.5] := by
  have h := (falsy_record_forces_eps_fallback zeroRecordInput 5 (some 0)
    (by decide) (Or.inl (by decide))).2.1 4.5 rfl
  exact ⟨by decide, by rw [h]; rfl⟩

-- C6: the zero-book-value gap in the Input Provider contract

/- A fetch input that is complete in every field the fetch reads, except
that its bookValue is exactly 0 (present, hence not None). -/
def zeroBookValueInput : FetchInput :=
  { regularMarketPrice := some 10, bookValue := some 0,
    sharesOutstanding := some 2,
    incomeStatementHistory := [some 10, some 10, some 10, some 10, some 10],
    trailingEps := some 4.5,
    qfTotalRevenue := some [2, 2, 2, 2],
    qfNetIncome := none,
    totalStockholderEquity := none,
    trailingReturnOnEquity := some 6,
    returnOnEquity := none,
    finGrossProfit := some [20, 20, 20, 20, 20],
    finTotalRevenue := some [100, 100, 100, 100, 100] }

/- A snapshot with bookValuePerShare 0, of the shape the fetched
strategy produces from zeroBookValueInput. -/
def zeroBookValueSnap : FinancialData :=
  { eps_5y := [5, 5, 5, 5, 5], rev_4q := [2, 2, 2, 2],
    roe_4q := [6, 6, 6, 6], gm_5y := [20, 20, 20, 20, 20],
    price := 10, bvps := 0 }

/-- C6 counterexample: the fetched Input Provider completes successfully
on zeroBookValueInput and the snapshot it produces has
bookValuePerShare 0 — the price/book-value gate rejects only a missing
value, not a zero one — refuting the contract that every snapshot the
Input Provider produces has a nonzero bookValuePerShare. -/
theorem zero_book_value_snapshot_produced :
    (fetch_financials zeroBookValueInput 5 4).toOption.map
      FinancialData.bvps = some 0 := rfl

/-- C6 amended: the fetched strategy fails only when the price or book
value is missing (None); on success the snapshot carries the fetched
book value unchanged, with no nonzero filtering, and the calculator
computes price / bookValuePerShare with no guard of its own — so a
snapshot with zero bookValuePerShare reaches the unguarded division. -/
theorem book_value_checked_for_none_only (inp : FetchInput) (y q : Nat)
    (d : FinancialData) :
    (inp.bookValue = none →
      fetch_financials inp y q = Except.error FetchError.noPriceOrBvps) ∧
    (∀ s, fetch_financials inp y q = Except.ok s →
      inp.bookValue = some s.bvps) ∧
    (calculate_indicators d).pb_ratio = d.price / d.bvps := by
  refine ⟨?_, ?_, rfl⟩
  · intro hb
    unfold fetch_financials
    rw [hb]
    cases inp.regularMarketPrice <;> rfl
  · intro s hs
    exact (fetch_ok_spec inp y q s hs).2.1

/-- C6 amended witness: a fetch input with bookValue None fails with the
price/book-value error, and on a concrete snapshot the calculator
divides price by book value directly. -/
theorem book_value_checked_for_none_only_witness :
    fetch_financials
      { zeroBookValueInput with bookValue := none } 5 4 =
      Except.error FetchError.noPriceOrBvps ∧
    (calculate_indicators zeroBookValueSnap).pb_ratio =
      zeroBookValueSnap.price / zeroBookValueSnap.bvps := by
  refine ⟨(book_value_checked_for_none_only
    { zeroBookValueInput with bookValue := none } 5 4 zeroBookValueSnap).1 rfl,
    (book_value_checked_for_none_only
      { zeroBookValueInput with bookValue := none } 5 4 zeroBookValueSnap).2.2⟩

-- C10: negative book value slips through the price-to-book criterion

/- A snapshot whose histories all pass their thresholds and whose book
value per share is negative. -/
def negativeBookValueData : FinancialData :=
  { eps_5y := [2, 2, 2, 2, 2], rev_4q := [2, 2, 2, 2],
    roe_4q := [6, 6, 6, 6], gm_5y := [20, 20, 20, 20, 20],
    price := 10, bvps := -2 }

/-- C10: for every snapshot with a negative bookValuePerShare and a
positive price, the price-to-book ratio is negative, so the
price-to-book criterion (ratio < 1.5) passes — in the fetched variant
and in the interactive variant alike, neither of which rejects a
negative book value. -/
theorem negative_book_value_passes_pb (d : FinancialData)
    (eps rev roe gm : List ℚ) (p b : ℚ)
    (hdb : d.bvps < 0) (hdp : 0 < d.price) (hb : b < 0) (hp : 0 < p) :
    (apply_buffett_criteria (calculate_indicators d)).c3_pb = true ∧
    (stock_conditions eps rev roe gm p b).c3_pb = true := by
  have hlt : ∀ x y : ℚ, y < 0 → 0 < x → x / y < 1.5 := by
    intro x y hy hx
    calc x / y < 0 := div_neg_of_pos_of_neg hx hy
      _ < 1.5 := by norm_num
  constructor
  · simp only [apply_buffett_criteria, calculate_indicators,
      decide_eq_true_eq]
    exact hlt d.price d.bvps hdb hdp
  · simp only [stock_conditions, decide_eq_true_eq]
    exact hlt p b hb hp

/-- C10 witness: a snapshot with price 10 and book value -2 passes the
price-to-book criterion and, with passing histories, earns the overall
recommended verdict. -/
theorem negative_book_value_passes_pb_witness :
    (apply_buffett_criteria
      (calculate_indicators negativeBookValueData)).c3_pb = true ∧
    display_verdict (apply_buffett_criteria
      (calculate_indicators negativeBookValueData)) = Verdict.recommended := by
  refine ⟨(negative_book_value_passes_pb negativeBookValueData
    [] [] [] [] 1 (-1) (by norm_num [negativeBookValueData])
    (by norm_num [negativeBookValueData]) (by norm_num)
    (by norm_num)).1, ?_⟩
  rw [display_verdict_eq_recommended_iff]
  norm_num [apply_buffett_criteria, calculate_indicators,
    negativeBookValueData, CriteriaResult.values]

end BuffettScreen
